import Mathlib

/-!
Verification of the custom protocol handler library (scheme registry and
URL resolver). The primary embedding follows the ProtocolError-based
implementation (registry of scheme → resolver callback, blacklist,
asynchronous resolution with pass-through for blacklisted schemes); a
second namespace embeds the older TypeError-based variant whose
`normalize` lowercases schemes.
-/

set_option maxRecDepth 4000

/-- Character class of the scheme-extraction pattern, the characters
matched by the case-insensitive class of letters, digits, dot, plus and
hyphen. -/
def isProtoChar (c : Char) : Bool :=
  c.isAlpha || c.isDigit || c == '.' || c == '+' || c == '-'

/-- Model of JavaScript `String.prototype.trim` on a character list:
whitespace is removed from both ends. -/
def jsTrim (cs : List Char) : List Char :=
  ((cs.dropWhile Char.isWhitespace).reverse.dropWhile Char.isWhitespace).reverse

/-- Embeds `isProtocolRelative`: the trimmed url starts with `//`. -/
def isProtocolRelative (url : String) : Bool :=
  List.isPrefixOf ['/', '/'] (jsTrim url.toList)

/-- Embeds `getProtocol` of the ProtocolError variant: match the leading
run of scheme characters of the trimmed string followed by a colon and
return it (case preserved, exactly as the source regex match does), else
nothing. -/
def getProtocol (str : String) : Option String :=
  let t := jsTrim str.toList
  let run := t.takeWhile isProtoChar
  let rest := t.dropWhile isProtoChar
  if run.isEmpty then none
  else if rest.head? == some ':' then some (String.mk run ++ ":")
  else none

/-- Error code `ERR_PROTOCOL_INVALID`. -/
def ERR_PROTOCOL_INVALID : Int := -1

/-- Error code `ERR_PROTOCOL_UNKNOWN`. -/
def ERR_PROTOCOL_UNKNOWN : Int := 1

/-- Error code `ERR_PROTOCOL_BLACKLISTED`. -/
def ERR_PROTOCOL_BLACKLISTED : Int := 2

/-- Embeds the `ProtocolError` class: an error code and a message. -/
structure ProtocolError where
  code : Int
  message : String
deriving DecidableEq

/-- The `name` property of every `ProtocolError` instance, fixed to the
class name by the source. -/
def ProtocolError.jsName : String := "ProtocolError"

/-- A JavaScript error value as it travels through a rejected promise:
either an instance of the exported `ProtocolError` class (whether raised
by the library or thrown by a resolver callback) or any other thrown
value (modelled by a string). -/
inductive ResolveErr
  | protoErr (e : ProtocolError)
  | thrown (v : String)
deriving DecidableEq

/-- A resolver callback: maps a url to a result string, or throws —
including the possibility of throwing an instance of the exported
`ProtocolError` class itself. -/
def ProtocolCallback := String → Except ResolveErr String

/-- Default blacklist of the ProtocolError variant. -/
def BLACKLISTED_PROTOCOLS : List String := ["http:", "https:", "file:"]

/-- Handler state: the blacklist and the registry (an insertion-ordered
map from scheme to resolver callback, modelled as an association list). -/
structure ProtocolHandler where
  blacklist : List String
  handlers : List (String × ProtocolCallback)

/-- JavaScript `Map.prototype.set`: replace in place when the key is
present, otherwise append. -/
def mapSet (m : List (String × ProtocolCallback)) (k : String) (v : ProtocolCallback) :
    List (String × ProtocolCallback) :=
  if m.any (fun p => p.1 == k) then m.map (fun p => if p.1 == k then (k, v) else p)
  else m ++ [(k, v)]

/-- JavaScript `Map.prototype.get` on the association list. -/
def mapGet (m : List (String × ProtocolCallback)) (k : String) : Option ProtocolCallback :=
  (m.find? (fun p => p.1 == k)).map Prod.snd

/-- Embeds the constructor: default blacklist extended with the
caller-supplied entries, empty registry. -/
def ProtocolHandler.create (blacklist : List String) : ProtocolHandler :=
  { blacklist := BLACKLISTED_PROTOCOLS ++ blacklist, handlers := [] }

/-- Embeds `ProtocolHandler.protocol` (registration) of the
ProtocolError variant: extract the scheme (invalid when extraction
fails), reject blacklisted schemes, otherwise store the callback. The
result pairs the thrown error (if any) with the state at exit. -/
def ProtocolHandler.protocol (h : ProtocolHandler) (scheme : String) (cb : ProtocolCallback) :
    Option ProtocolError × ProtocolHandler :=
  match getProtocol scheme with
  | none =>
      (some ⟨ERR_PROTOCOL_INVALID, "Invalid protocol: `" ++ scheme ++ "`"⟩, h)
  | some protocol =>
      if h.blacklist.contains protocol then
        (some ⟨ERR_PROTOCOL_BLACKLISTED,
          "Registering handler for `" ++ scheme ++ "` is not allowed."⟩, h)
      else
        (none, { h with handlers := mapSet h.handlers protocol cb })

/-- Embeds the `protocols` getter: the set of registry keys (keys are
unique, listed in registration order). -/
def ProtocolHandler.protocols (h : ProtocolHandler) : List String :=
  h.handlers.map Prod.fst

/-- Output of the internal resolution routine: the settled result, the
list of schemes whose callback was invoked, and the handler state after
the call. -/
structure ResolveOut where
  result : Except ResolveErr String
  invoked : List String
  post : ProtocolHandler

/-- Embeds the internal async `_resolve`: protocol-relative urls are
returned unchanged; a url without extractable scheme rejects with
`ERR_PROTOCOL_INVALID`; a registered callback is invoked (`pTry` turns
its thrown value into a rejection carrying that very value); otherwise
blacklisted schemes reject with `ERR_PROTOCOL_BLACKLISTED` and all
other schemes with `ERR_PROTOCOL_UNKNOWN`. -/
def ProtocolHandler._resolve (h : ProtocolHandler) (url : String) : ResolveOut :=
  if url != "" && isProtocolRelative url then ⟨Except.ok url, [], h⟩
  else
    match getProtocol url with
    | none =>
        ⟨Except.error (ResolveErr.protoErr
          ⟨ERR_PROTOCOL_INVALID, "Invalid url: `" ++ url ++ "`"⟩), [], h⟩
    | some protocol =>
        match mapGet h.handlers protocol with
        | some handler =>
            match handler url with
            | Except.ok v => ⟨Except.ok v, [protocol], h⟩
            | Except.error e => ⟨Except.error e, [protocol], h⟩
        | none =>
            if h.blacklist.contains protocol then
              ⟨Except.error (ResolveErr.protoErr
                ⟨ERR_PROTOCOL_BLACKLISTED, "Blacklisted protocol: `" ++ protocol ++ "`"⟩), [], h⟩
            else
              ⟨Except.error (ResolveErr.protoErr
                ⟨ERR_PROTOCOL_UNKNOWN, "Unknown protocol: `" ++ protocol ++ "`"⟩), [], h⟩

/-- Embeds the `isBlacklisted` error predicate: a `ProtocolError` whose
code is `ERR_PROTOCOL_BLACKLISTED`. -/
def isBlacklisted (err : ResolveErr) : Bool :=
  match err with
  | ResolveErr.protoErr e => e.code == ERR_PROTOCOL_BLACKLISTED
  | ResolveErr.thrown _ => false

/-- Embeds the public `resolve`: the internal resolution with a catch
that turns a blacklisted rejection into the original url. -/
def ProtocolHandler.resolve (h : ProtocolHandler) (url : String) : Except ResolveErr String :=
  match (h._resolve url).result with
  | Except.ok v => Except.ok v
  | Except.error e => if isBlacklisted e then Except.ok url else Except.error e

namespace IndexJs

/-- Default blacklist of the TypeError-based variant. -/
def BLACKLISTED_SCHEMES : List String := ["http:", "https:"]

/-- Character class of the valid-scheme pattern of the TypeError-based
variant: lowercase letters, digits and plus only. -/
def isSchemeChar (c : Char) : Bool :=
  c.isLower || c.isDigit || c == '+'

/-- Embeds `isValidScheme`: at least two scheme characters followed by
exactly one colon at the end. -/
def isValidScheme (str : String) : Bool :=
  let cs := str.toList
  decide (3 ≤ cs.length) && cs.dropLast.all isSchemeChar && (cs.getLast? == some ':')

/-- Embeds `normalize`: lowercase, trim, and replace a trailing `://` by
a single colon (dropping the two slashes keeps the colon). -/
def normalize (scheme : String) : String :=
  let cs := jsTrim (scheme.toList.map Char.toLower)
  if List.isPrefixOf ['/', '/', ':'] cs.reverse then String.mk cs.dropLast.dropLast
  else String.mk cs

/-- Handler state of the TypeError-based variant. -/
structure Handler where
  blacklist : List String
  handlers : List (String × ProtocolCallback)

/-- Embeds the constructor of the TypeError-based variant. -/
def create (blacklist : List String) : Handler :=
  { blacklist := BLACKLISTED_SCHEMES ++ blacklist, handlers := [] }

/-- Embeds `protocol` (registration) of the TypeError-based variant:
normalize, reject blacklisted schemes first, then invalid ones, else
store the callback. The thrown TypeError is modelled by its message. -/
def protocol (h : Handler) (scheme : String) (cb : ProtocolCallback) :
    Option String × Handler :=
  let scheme := normalize scheme
  if h.blacklist.contains scheme then
    (some ("Registering handler for `" ++ scheme ++ "` is not allowed."), h)
  else if !(isValidScheme scheme) then
    (some "Invalid protocol provided.", h)
  else
    (none, { h with handlers := mapSet h.handlers scheme cb })

end IndexJs

/-- Value of a single hexadecimal digit. -/
def hexDigitVal (c : Char) : Option Nat :=
  if c.isDigit then some (c.toNat - 48)
  else if 'a' ≤ c && c ≤ 'f' then some (c.toNat - 87)
  else if 'A' ≤ c && c ≤ 'F' then some (c.toNat - 55)
  else none

/-- Modelled from the spec: percent-decoding as performed by
`decodeURIComponent` on the query parameter, restricted to single-byte
escapes (each valid `%XX` becomes the character with that code). -/
def percentDecode : List Char → List Char
  | '%' :: h1 :: h2 :: rest =>
      match hexDigitVal h1, hexDigitVal h2 with
      | some a, some b => Char.ofNat (16 * a + b) :: percentDecode rest
      | _, _ => '%' :: percentDecode (h1 :: h2 :: rest)
  | c :: rest => c :: percentDecode rest
  | [] => []

/-- Modelled from the spec: `decodeURIComponent` applied to the raw
query-parameter value. -/
def decodeURIComponent (s : String) : String :=
  String.mk (percentDecode s.toList)

/-- Response actions a middleware can instruct the framework to take:
redirect, respond with a status and a structured error body holding the
error name, code and message, or delegate to the framework error path. -/
inductive MwResponse
  | redirect (url : String)
  | badRequest (status : Nat) (errName : String) (code : Int) (message : String)
  | delegated (v : String)
deriving DecidableEq

/-- Modelled from the spec: the transport-adapter middleware (the final
middleware implementation exercised by the repository's Express tests is
not among the provided sources; only `src/test.js` tests it). It decodes
the query-parameter value, resolves it, redirects on success, responds
with HTTP 400 and the structured error body on a `ProtocolError`
rejection, and delegates any other rejection to the framework. -/
def ProtocolHandler.middleware (h : ProtocolHandler) (rawParam : String) : MwResponse :=
  let url := decodeURIComponent rawParam
  match h.resolve url with
  | Except.ok redirectUrl => MwResponse.redirect redirectUrl
  | Except.error (ResolveErr.protoErr e) =>
      MwResponse.badRequest 400 ProtocolError.jsName e.code e.message
  | Except.error (ResolveErr.thrown v) => MwResponse.delegated v

instance {ε α : Type} [DecidableEq ε] [DecidableEq α] : DecidableEq (Except ε α)
  | Except.ok a, Except.ok b =>
      if h : a = b then isTrue (by rw [h])
      else isFalse (by intro he; cases he; exact h rfl)
  | Except.ok _, Except.error _ => isFalse (by intro he; cases he)
  | Except.error _, Except.ok _ => isFalse (by intro he; cases he)
  | Except.error e, Except.error f =>
      if h : e = f then isTrue (by rw [h])
      else isFalse (by intro he; cases he; exact h rfl)

/-- Resolver used by concrete test instances. -/
def dummyResolver : ProtocolCallback := fun _ => Except.ok "https://example.org"

/-- Resolver that throws an ordinary value, used by concrete test
instances. -/
def throwingResolver : ProtocolCallback := fun _ => Except.error (ResolveErr.thrown "boom")

/-- Resolver that throws an instance of the exported `ProtocolError`
class carrying the blacklisted code, used by concrete test instances. -/
def blacklistThrowingResolver : ProtocolCallback :=
  fun _ => Except.error (ResolveErr.protoErr
    ⟨ERR_PROTOCOL_BLACKLISTED, "thrown by resolver"⟩)

/-- A url whose scheme extraction succeeds is not protocol-relative:
the trimmed string starts with a scheme character, never with a slash. -/
theorem getProtocol_not_relative {url p : String}
    (hp : getProtocol url = some p) : isProtocolRelative url = false := by
  unfold getProtocol at hp
  unfold isProtocolRelative
  cases hT : jsTrim url.toList with
  | nil => rw [hT] at hp; simp [List.takeWhile] at hp
  | cons c cs =>
    rw [hT] at hp
    by_cases hc : c = '/'
    · subst hc
      simp [List.takeWhile, isProtoChar] at hp
    · simp [List.isPrefixOf, Ne.symm hc]

/-- A protocol-relative url is nonempty. -/
theorem relative_ne_empty {url : String}
    (h : isProtocolRelative url = true) : (url != "") = true := by
  rcases eq_or_ne url "" with rfl | hne
  · exact absurd h (by decide)
  · simp [bne_iff_ne, hne]

/-- C1: a url with a syntactically valid scheme that has no registered
resolver and is blacklisted resolves successfully to the original url
unchanged (blacklist pass-through). -/
theorem resolve_blacklisted_passthrough (h : ProtocolHandler) (url p : String)
    (hp : getProtocol url = some p)
    (hnone : mapGet h.handlers p = none)
    (hbl : h.blacklist.contains p = true) :
    h.resolve url = Except.ok url := by
  have hrel := getProtocol_not_relative hp
  have hmem : p ∈ h.blacklist := by simpa using hbl
  unfold ProtocolHandler.resolve ProtocolHandler._resolve
  simp [hrel, hp, hnone, hmem, isBlacklisted, ERR_PROTOCOL_BLACKLISTED]

/-- Witness for C1: with the default blacklist and no registrations,
`file:///local/file.txt` passes through unchanged. -/
theorem resolve_blacklisted_passthrough_witness :
    (ProtocolHandler.create []).resolve "file:///local/file.txt" =
      Except.ok "file:///local/file.txt" :=
  resolve_blacklisted_passthrough (ProtocolHandler.create []) _ "file:"
    (by decide) rfl (by decide)

/-- C2: a url with a syntactically valid scheme that is neither
blacklisted nor registered rejects with a ProtocolError carrying
`ERR_PROTOCOL_UNKNOWN`; in particular the resolution is not a success. -/
theorem resolve_unknown_protocol_fails (h : ProtocolHandler) (url p : String)
    (hp : getProtocol url = some p)
    (hnone : mapGet h.handlers p = none)
    (hbl : h.blacklist.contains p = false) :
    h.resolve url = Except.error (ResolveErr.protoErr
      ⟨ERR_PROTOCOL_UNKNOWN, "Unknown protocol: `" ++ p ++ "`"⟩) := by
  have hrel := getProtocol_not_relative hp
  have hmem : p ∉ h.blacklist := by simpa using hbl
  unfold ProtocolHandler.resolve ProtocolHandler._resolve
  simp [hrel, hp, hnone, hmem, isBlacklisted, ERR_PROTOCOL_UNKNOWN,
    ERR_PROTOCOL_BLACKLISTED]

/-- Witness for C2: `dummy://unknown` on a fresh handler rejects with
the unknown-protocol error. -/
theorem resolve_unknown_protocol_fails_witness :
    (ProtocolHandler.create []).resolve "dummy://unknown" =
      Except.error (ResolveErr.protoErr
        ⟨ERR_PROTOCOL_UNKNOWN, "Unknown protocol: `" ++ "dummy:" ++ "`"⟩) :=
  resolve_unknown_protocol_fails (ProtocolHandler.create []) _ "dummy:"
    (by decide) rfl (by decide)

/-- C3: a protocol-relative url (trimmed string starting with `//`) is
returned unchanged as a success and no resolver callback is invoked,
whatever the registry holds. -/
theorem resolve_protocol_relative_passes_through (h : ProtocolHandler) (url : String)
    (hrel : isProtocolRelative url = true) :
    h.resolve url = Except.ok url ∧ (h._resolve url).invoked = [] := by
  have hne := relative_ne_empty hrel
  unfold ProtocolHandler.resolve ProtocolHandler._resolve
  simp [hrel, hne]

/-- Witness for C3: `//google.com` resolves to itself with no callback
invocation even when a resolver is registered. -/
theorem resolve_protocol_relative_passes_through_witness :
    (((ProtocolHandler.create []).protocol "s3://" dummyResolver).2.resolve
        "//google.com" = Except.ok "//google.com") ∧
      ((((ProtocolHandler.create []).protocol "s3://" dummyResolver).2)._resolve
        "//google.com").invoked = [] :=
  resolve_protocol_relative_passes_through _ "//google.com" (by decide)

/-- C6: registering a raw scheme from which no syntactically valid
scheme can be extracted fails with the invalid-protocol error (code
`ERR_PROTOCOL_INVALID` and no other), for every callback, leaving the
state at the throw point. -/
theorem register_invalid_scheme_fails (h : ProtocolHandler) (s : String)
    (f : ProtocolCallback) (hinv : getProtocol s = none) :
    h.protocol s f =
      (some ⟨ERR_PROTOCOL_INVALID, "Invalid protocol: `" ++ s ++ "`"⟩, h) := by
  unfold ProtocolHandler.protocol
  simp [hinv]

/-- Witness for C6: registering `invalid-$cheme:` fails with the
invalid-protocol error. -/
theorem register_invalid_scheme_fails_witness :
    (ProtocolHandler.create []).protocol "invalid-$cheme:" dummyResolver =
      (some ⟨ERR_PROTOCOL_INVALID, "Invalid protocol: `" ++ "invalid-$cheme:" ++ "`"⟩,
        ProtocolHandler.create []) :=
  register_invalid_scheme_fails (ProtocolHandler.create []) _ dummyResolver (by decide)

/-- Counterexample to C7: a registered resolver that throws an instance
of the exported `ProtocolError` class with code
`ERR_PROTOCOL_BLACKLISTED` does not produce a failed result — the
`pCatchIf(isBlacklisted)` catch of `resolve` tests the thrown value and
fulfills with the original url, a success. -/
theorem resolver_blacklisted_throw_fulfills :
    (((ProtocolHandler.create []).protocol "s3://" blacklistThrowingResolver).2).resolve
      "s3://dummyKey" = Except.ok "s3://dummyKey" := by decide

/-- C7 (amended): a thrown resolver exception is never re-raised outside
the deferred result — it is captured and routed through the result:
delivered as a failed result carrying the thrown value itself, except
when the thrown value is a `ProtocolError` with the blacklisted code,
which the catch of `resolve` converts into a success with the original
url. -/
theorem resolver_exception_captured_into_result (h : ProtocolHandler) (url p : String)
    (v : ResolveErr) (cb : ProtocolCallback) (hp : getProtocol url = some p)
    (hcb : mapGet h.handlers p = some cb)
    (hthrow : cb url = Except.error v) :
    h.resolve url = if isBlacklisted v then Except.ok url else Except.error v := by
  have hrel := getProtocol_not_relative hp
  unfold ProtocolHandler.resolve ProtocolHandler._resolve
  simp [hrel, hp, hcb, hthrow]

/-- Witness for the amended C7: a resolver throwing the ordinary value
`boom` yields a failed result carrying `boom`. -/
theorem resolver_exception_captured_into_result_witness :
    (((ProtocolHandler.create []).protocol "s3://" throwingResolver).2).resolve
      "s3://dummyKey" = Except.error (ResolveErr.thrown "boom") :=
  resolver_exception_captured_into_result _ _ "s3:" (ResolveErr.thrown "boom")
    throwingResolver (by decide) rfl rfl

/-- C4: the middleware decodes the query-parameter value and resolves
it; a successful resolution becomes a redirect to the target, a
`ProtocolError` rejection becomes an HTTP 400 response with the
structured error body (name, code, message), and any other rejection is
delegated to the framework error path. -/
theorem middleware_redirects_or_badRequest (h : ProtocolHandler) (raw : String)
    (r : Except ResolveErr String)
    (hres : h.resolve (decodeURIComponent raw) = r) :
    h.middleware raw =
      match r with
      | Except.ok t => MwResponse.redirect t
      | Except.error (ResolveErr.protoErr e) =>
          MwResponse.badRequest 400 ProtocolError.jsName e.code e.message
      | Except.error (ResolveErr.thrown v) => MwResponse.delegated v := by
  unfold ProtocolHandler.middleware
  cases r with
  | ok t => simp [hres]
  | error e =>
      cases e with
      | protoErr pe => simp [hres]
      | thrown v => simp [hres]

/-- Witness for C4: the encoded url `s3%3A%2F%2FdummyKey` redirects via
the registered resolver, and an unknown scheme yields the structured
400 response. -/
theorem middleware_redirects_or_badRequest_witness :
    ((((ProtocolHandler.create []).protocol "s3://" dummyResolver).2).middleware
        "s3%3A%2F%2FdummyKey" = MwResponse.redirect "https://example.org") ∧
      ((ProtocolHandler.create []).middleware "unknown%3A%2F%2FdummyKey" =
        MwResponse.badRequest 400 "ProtocolError" ERR_PROTOCOL_UNKNOWN
          ("Unknown protocol: `" ++ "unknown:" ++ "`")) :=
  ⟨middleware_redirects_or_badRequest _ _
      (Except.ok "https://example.org") (by decide),
    middleware_redirects_or_badRequest _ _
      (Except.error (ResolveErr.protoErr
        ⟨ERR_PROTOCOL_UNKNOWN, "Unknown protocol: `" ++ "unknown:" ++ "`"⟩))
      (by decide)⟩

/-- C5 (code bug evidence): `https://` (lowercase, trailing slashes) is
rejected as blacklisted, but the casing variant `HTTP://` is accepted by
registration — `getProtocol` preserves case while the blacklist holds
lowercase entries, so the handler is stored under `HTTP:`. The
TypeError-based variant lowercases in `normalize` and rejects it. -/
theorem register_blacklist_casing_bypass :
    (((ProtocolHandler.create []).protocol "https://" dummyResolver).1 =
        some ⟨ERR_PROTOCOL_BLACKLISTED,
          "Registering handler for `" ++ "https://" ++ "` is not allowed."⟩) ∧
      (((ProtocolHandler.create []).protocol "HTTP://" dummyResolver).1 = none) ∧
      (((ProtocolHandler.create []).protocol "HTTP://" dummyResolver).2.protocols =
        ["HTTP:"]) ∧
      ((IndexJs.protocol (IndexJs.create []) "HTTP://" dummyResolver).1 =
        some ("Registering handler for `" ++ "http:" ++ "` is not allowed.")) :=
  ⟨by decide, by decide, by decide, by decide⟩

/-- C8: chaining `protocol "s3://"` and `protocol "gdrive:"` on a fresh
handler succeeds at both steps and the `protocols` getter lists the
normalized schemes `s3:` and `gdrive:` in registration order. -/
theorem protocols_after_chained_registration :
    ((((ProtocolHandler.create []).protocol "s3://" dummyResolver).2.protocol
        "gdrive:" dummyResolver).2.protocols = ["s3:", "gdrive:"]) ∧
      (((ProtocolHandler.create []).protocol "s3://" dummyResolver).1 = none) ∧
      ((((ProtocolHandler.create []).protocol "s3://" dummyResolver).2.protocol
        "gdrive:" dummyResolver).1 = none) :=
  ⟨by decide, by decide, by decide⟩

/-- C9: a registration attempt that fails — in either implementation
variant — leaves the handler state, registry included, exactly as it
was. -/
theorem failed_registration_preserves_registry :
    (∀ (h : ProtocolHandler) (s : String) (f : ProtocolCallback) (e : ProtocolError),
        (h.protocol s f).1 = some e → (h.protocol s f).2 = h) ∧
      (∀ (g : IndexJs.Handler) (s : String) (f : ProtocolCallback) (m : String),
        (IndexJs.protocol g s f).1 = some m → (IndexJs.protocol g s f).2 = g) := by
  constructor
  · intro h s f e hErr
    unfold ProtocolHandler.protocol at *
    cases hg : getProtocol s with
    | none => rfl
    | some protocol =>
        by_cases hb : protocol ∈ h.blacklist
        · simp [hg, hb]
        · simp [hg, hb] at hErr
  · intro g s f m hErr
    unfold IndexJs.protocol at *
    by_cases hb : IndexJs.normalize s ∈ g.blacklist
    · simp [hb]
    · by_cases hv : IndexJs.isValidScheme (IndexJs.normalize s) = true
      · simp [hb, hv] at hErr
      · simp [hb, hv]

/-- Witness for C9: the failing registrations of `https://` leave a
fresh handler of each variant unchanged. -/
theorem failed_registration_preserves_registry_witness :
    (((ProtocolHandler.create []).protocol "https://" dummyResolver).2 =
        ProtocolHandler.create []) ∧
      ((IndexJs.protocol (IndexJs.create []) "https://" dummyResolver).2 =
        IndexJs.create []) :=
  ⟨failed_registration_preserves_registry.1 (ProtocolHandler.create []) "https://"
      dummyResolver ⟨ERR_PROTOCOL_BLACKLISTED,
        "Registering handler for `" ++ "https://" ++ "` is not allowed."⟩ (by decide),
    failed_registration_preserves_registry.2 (IndexJs.create []) "https://"
      dummyResolver ("Registering handler for `" ++ "https:" ++ "` is not allowed.")
      (by decide)⟩

/-- C10: the `protocols` getter is a pure function of the state — it
returns the registry's key set built afresh from the registry — and the
internal resolution routine leaves the handler state (registry and
blacklist) unchanged, so reads before and after a resolution agree. -/
theorem resolve_preserves_state_and_protocols_pure
    (h : ProtocolHandler) (url : String) :
    (h._resolve url).post = h ∧
      ((h._resolve url).post).protocols = h.handlers.map Prod.fst ∧
      (h._resolve url).post.blacklist = h.blacklist := by
  have hpost : (h._resolve url).post = h := by
    unfold ProtocolHandler._resolve
    by_cases hb : (url != "" && isProtocolRelative url) = true
    · simp [hb]
    · simp only [hb, if_false, Bool.false_eq_true]
      cases hg : getProtocol url with
      | none => rfl
      | some protocol =>
          cases hm : mapGet h.handlers protocol with
          | none =>
              by_cases hbl : protocol ∈ h.blacklist <;> simp [hg, hm, hbl]
          | some cb =>
              cases hc : cb url <;> simp [hg, hm, hc]
  exact ⟨hpost, by rw [hpost]; rfl, by rw [hpost]⟩
